import Mathlib

/-!
Verification of the AnkiDroid JS API desktop bridge (security and dispatch core).

This file shallowly embeds the security layer (`security.py`) and the command
router (`api_bridge.py`) of the add-on:

* `InputValidator.validate_text`  — text validation/sanitization;
* `RateLimiter.check`             — token-bucket admission control;
* `sanitize_for_logging`          — log redaction;
* `handle_pycmd` / `sendCallback` — the dispatch pipeline.

Modelling conventions:

* Python `float` time/token values are modelled as `ℚ` (the code performs only
  exact additions, subtractions, multiplications and comparisons on values that
  are exact in the scenarios considered, so rationals are a faithful model of
  the arithmetic the proofs rely on);
* Python dicts are modelled as total functions into `Option`
  (`defaultdict(int)` as a total function into `ℕ` with default `0`);
* strings are Lean `String`s; `len` on a Python `str` counts code points, which
  matches `List.length` on `String.data`;
* exceptions are modelled by `Except` with an explicit exception record
  carrying the class name (`kind`) and the message (`msg`).
-/

/-- A raised Python exception: its class name and its message. -/
structure ExcInfo where
  kind : String
  msg : String
deriving DecidableEq, Repr

/-! ## Constants (`constants.py`) -/

/-- `MAX_JSON_PAYLOAD_BYTES = 10 * 1024` -/
def MAX_JSON_PAYLOAD_BYTES : Nat := 10 * 1024

/-- `DEFAULT_API_RATE_LIMIT_PER_SECOND = 10` -/
def DEFAULT_API_RATE_LIMIT_PER_SECOND : Int := 10

/-- `RATE_LIMITER_CLEANUP_INTERVAL_SEC = 300.0` -/
def RATE_LIMITER_CLEANUP_INTERVAL_SEC : ℚ := 300

/-- `RATE_LIMITER_STALE_THRESHOLD_SEC = 3600.0` -/
def RATE_LIMITER_STALE_THRESHOLD_SEC : ℚ := 3600

/-- `MAX_TEXT_LENGTH = 500` -/
def MAX_TEXT_LENGTH : Nat := 500

/-- `MAX_LOG_MESSAGE_LENGTH = 100` -/
def MAX_LOG_MESSAGE_LENGTH : Nat := 100

/-! ## Python string primitives

Helper functions mirroring the Python `str` operations and the `re` constructs
used by `security.py`, over `List Char`. -/

/-- Python's whitespace class `\s` (and the class used by `str.strip()`),
restricted to the code points the add-on can meet after control-character
stripping plus the ASCII controls themselves (space, TAB, LF, VT, FF, CR). -/
def isSpacePy (c : Char) : Bool :=
  c = ' ' || c = '\t' || c = '\n' || c = Char.ofNat 11 || c = Char.ofNat 12 || c = '\r'

/-- Python's word class `\w`: alphanumerics plus underscore (the model uses
Lean's `Char.isAlphanum`; the claims below only exercise this class on
characters where the two agree). -/
def isWordPy (c : Char) : Bool :=
  c.isAlphanum || c = '_'

/-- Python `str.strip()`: drop leading and trailing whitespace. -/
def pyStrip (l : List Char) : List Char :=
  (l.dropWhile isSpacePy).rdropWhile isSpacePy

/-- The character class of `InputValidator.validate_text`'s default pattern
`[\w\s.,!?;:\-'「」。、]`. -/
def allowedDefaultChar (c : Char) : Bool :=
  isWordPy c || isSpacePy c ||
    c = '.' || c = ',' || c = '!' || c = '?' || c = ';' || c = ':' ||
    c = '-' || c = '\'' || c = '「' || c = '」' || c = '。' || c = '、'

/-- `re.match(r'^[...]+$', text)` for a character-class pattern: the whole
string is a nonempty run of class characters, or — because in Python `$`
also matches just before a final newline — everything except a final `'\n'`
is such a run. -/
def reMatchClassPlusDollar (p : Char → Bool) (l : List Char) : Bool :=
  (!l.isEmpty && l.all p) ||
    (l.getLast? = some '\n' && !l.dropLast.isEmpty && l.dropLast.all p)

/-- The control-character filter of `validate_text` when `allow_newlines` is
true: keep `char` iff `ord(char) >= 32 or char in '\n\t'`. -/
def keepCharNL (c : Char) : Bool :=
  32 ≤ c.toNat || c = '\n' || c = '\t'

/-- The control-character filter of `validate_text` when `allow_newlines` is
false: keep `char` iff `ord(char) >= 32 and char not in '\n\r'`. -/
def keepCharNoNL (c : Char) : Bool :=
  32 ≤ c.toNat && !(c = '\n') && !(c = '\r')

/-- `InputValidator.validate_text(text, max_length, pattern=default,
allow_newlines)` (`security.py`).  The `TypeError` branch for non-string input
is ruled out by typing; the pattern parameter is fixed to its default (the only
pattern the claims concern). -/
def validate_text (allowNewlines : Bool) (maxLength : Nat) (text : String) :
    Except ExcInfo String :=
  if text.data.length > maxLength then
    .error ⟨"ValueError",
      "Text too long: " ++ toString text.data.length ++ " > " ++ toString maxLength⟩
  else
    let t := if allowNewlines then text.data.filter keepCharNL
             else text.data.filter keepCharNoNL
    if !reMatchClassPlusDollar allowedDefaultChar t then
      .error ⟨"ValueError", "Text contains invalid characters"⟩
    else
      .ok (String.mk (pyStrip t))

instance {α β : Type} [DecidableEq α] [DecidableEq β] : DecidableEq (Except α β) :=
  fun a b =>
    match a, b with
    | .ok x, .ok y =>
        match decEq x y with
        | isTrue h => isTrue (by rw [h])
        | isFalse h => isFalse (fun he => h (Except.ok.inj he))
    | .error x, .error y =>
        match decEq x y with
        | isTrue h => isTrue (by rw [h])
        | isFalse h => isFalse (fun he => h (Except.error.inj he))
    | .ok _, .error _ => isFalse (fun he => Except.noConfusion he)
    | .error _, .ok _ => isFalse (fun he => Except.noConfusion he)

/-! ## RateLimiter (`security.py`)

The class attributes `_buckets`, `_call_counts` and `_last_cleanup` form the
limiter's state.  `_buckets` maps `key ↦ (tokens, last_refill)`; `_call_counts`
is a `defaultdict(int)`, modelled as a total function with default `0`
(a deleted entry is the same as an entry holding `0`). -/
structure RLState where
  buckets : String → Option (ℚ × ℚ)
  callCounts : String → Nat
  lastCleanup : ℚ

/-- `RateLimiter._cleanup_stale_entries(now)`: delete every bucket with
`now - last_refill > _STALE_THRESHOLD`, together with its call counter. -/
def RateLimiter.cleanupStale (now : ℚ) (st : RLState) : RLState :=
  { buckets := fun k =>
      match st.buckets k with
      | some (tok, lastRefill) =>
          if now - lastRefill > RATE_LIMITER_STALE_THRESHOLD_SEC then none
          else some (tok, lastRefill)
      | none => none
    callCounts := fun k =>
      match st.buckets k with
      | some (_, lastRefill) =>
          if now - lastRefill > RATE_LIMITER_STALE_THRESHOLD_SEC then 0
          else st.callCounts k
      | none => st.callCounts k
    lastCleanup := st.lastCleanup }

/-- The periodic-cleanup step at the top of `check` (`security.py`,
lines 248–251): sweep stale entries and reset `_last_cleanup` when the
cleanup interval has passed, otherwise leave the state alone. -/
def RateLimiter.maybeCleanup (st : RLState) (now : ℚ) : RLState :=
  if now - st.lastCleanup > RATE_LIMITER_CLEANUP_INTERVAL_SEC then
    { RateLimiter.cleanupStale now st with lastCleanup := now }
  else st

/-- `RateLimiter.check(identifier, operation, max_per_second)`.  `time.time()`
is passed in as `now`; the result is the returned `bool` together with the
updated limiter state. -/
def RateLimiter.check (st : RLState) (identifier operation : String)
    (maxPerSecond : Int) (now : ℚ) : Bool × RLState :=
  let st := RateLimiter.maybeCleanup st now
  let key := identifier ++ ":" ++ operation
  match st.buckets key with
  | none =>
      (true,
        { st with
          buckets := fun k => if k = key then some ((maxPerSecond : ℚ), now) else st.buckets k
          callCounts := fun k => if k = key then 1 else st.callCounts k })
  | some (tokens, lastRefill) =>
      let elapsed := now - lastRefill
      let tokens := min ((maxPerSecond : ℚ)) (tokens + elapsed * (maxPerSecond : ℚ))
      if tokens ≥ 1 then
        (true,
          { st with
            buckets := fun k => if k = key then some (tokens - 1, now) else st.buckets k
            callCounts := fun k => if k = key then st.callCounts k + 1 else st.callCounts k })
      else
        (false, st)

/-- `RateLimiter.get_call_count(identifier, operation)`. -/
def RateLimiter.getCallCount (st : RLState) (identifier operation : String) : Nat :=
  st.callCounts (identifier ++ ":" ++ operation)

/-- A sequence of `n` consecutive `check` calls for the same key, all with the
same `maxPerSecond` and the same clock value (zero elapsed time in between);
returns the list of results and the final state. -/
def RateLimiter.checkSeq (st : RLState) (identifier operation : String)
    (maxPerSecond : Int) (now : ℚ) : Nat → List Bool × RLState
  | 0 => ([], st)
  | n + 1 =>
      let (b, st') := RateLimiter.check st identifier operation maxPerSecond now
      let (bs, st'') := RateLimiter.checkSeq st' identifier operation maxPerSecond now n
      (b :: bs, st'')

/-- The limiter state at process start: no buckets, no counters. -/
def RLState.initial (startTime : ℚ) : RLState :=
  ⟨fun _ => none, fun _ => 0, startTime⟩

/-- After a check at time `now` touched `key`, this is the shape of the
limiter state the next zero-elapsed check sees: a bucket refilled at `now`
and a cleanup clock that will not trigger a sweep at `now`. -/
def RLInv (st : RLState) (key : String) (tok now : ℚ) : Prop :=
  st.buckets key = some (tok, now) ∧ ¬(now - st.lastCleanup > RATE_LIMITER_CLEANUP_INTERVAL_SEC)

/-! ## Log redaction (`sanitize_for_logging`, `security.py`)

`re.sub` with the module's four pre-compiled patterns.  Each pattern is
deterministic enough that its match at a given position can be computed
directly (greedy repetition over a character class followed by a character
outside the class needs no backtracking); only the file-path pattern
backtracks, which is modelled by explicit descending searches mirroring the
greedy preference of `.*` and `[^\\/]+`.  The scanner walks the string left to
right, replacing each non-overlapping match and resuming after it, exactly as
`re.sub` does; the fuel argument (initialized to the string length) dominates
the number of scanner steps, each of which consumes at least one character. -/

/-- Consume an exact literal: `some rest` iff `l` starts with `lit`. -/
def stripLit : List Char → List Char → Option (List Char)
  | [], l => some l
  | _ :: _, [] => none
  | x :: xs, c :: cs => if c = x then stripLit xs cs else none

/-- Match, at the current position, `<fieldLit>\s*<openC>[^closeC]*<closeC>`
(the shape of the `"text"`/`"query"`/`"tags"` redaction patterns); on success
return the fixed replacement text and the rest of the input. -/
def matchFieldAt (fieldLit : List Char) (openC closeC : Char) (repl : List Char)
    (l : List Char) : Option (List Char × List Char) :=
  match stripLit fieldLit l with
  | none => none
  | some l1 =>
      match l1.dropWhile isSpacePy with
      | c :: l3 =>
          if c = openC then
            match l3.dropWhile (fun d => !(d = closeC)) with
            | d :: l5 => if d = closeC then some (repl, l5) else none
            | [] => none
          else none
      | [] => none

/-- `_SANITIZE_TEXT_RE = re.compile(r'"text":\s*"[^"]*"')`, replacement
`'"text":"[REDACTED]"'`. -/
def matchTextAt (l : List Char) : Option (List Char × List Char) :=
  matchFieldAt "\"text\":".data '"' '"' "\"text\":\"[REDACTED]\"".data l

/-- `_SANITIZE_QUERY_RE = re.compile(r'"query":\s*"[^"]*"')`, replacement
`'"query":"[REDACTED]"'`. -/
def matchQueryAt (l : List Char) : Option (List Char × List Char) :=
  matchFieldAt "\"query\":".data '"' '"' "\"query\":\"[REDACTED]\"".data l

/-- `_SANITIZE_TAGS_RE = re.compile(r'"tags":\s*\[[^\]]*\]')`, replacement
`'"tags":"[REDACTED]"'`. -/
def matchTagsAt (l : List Char) : Option (List Char × List Char) :=
  matchFieldAt "\"tags\":".data '[' ']' "\"tags\":\"[REDACTED]\"".data l

/-- Try `f` at `k, k-1, ..., 0` and return the first success (the order in
which a greedy repetition hands back characters while backtracking). -/
def tryDownFrom (f : Nat → Option α) : Nat → Option α
  | 0 => f 0
  | k + 1 =>
      match f (k + 1) with
      | some r => some r
      | none => tryDownFrom f k

/-- The tail `([^\\/]+\.py)"` of the path pattern: greedy `[^\\/]+` (longest
first), then the literal `.py"`; on success return the replacement
`File "<capture>"` and the rest. -/
def matchPathTail (t : List Char) : Option (List Char × List Char) :=
  let m := (t.takeWhile (fun c => !(c = '/') && !(c = '\\'))).length
  tryDownFrom (fun j =>
    if j = 0 then none
    else
      match t.drop j with
      | '.' :: 'p' :: 'y' :: '"' :: rest =>
          some ("File \"".data ++ (t.take j ++ ['.', 'p', 'y']) ++ ['"'], rest)
      | _ => none) m

/-- `_SANITIZE_PATH_RE = re.compile(r'File ".*[\\/]([^\\/]+\.py)"')`,
replacement `r'File "\1"'`: the literal `File "`, then greedy `.*` (no
newline, longest first), a path separator, and the tail pattern. -/
def matchPathAt (l : List Char) : Option (List Char × List Char) :=
  match stripLit "File \"".data l with
  | none => none
  | some l1 =>
      tryDownFrom (fun k =>
        match l1.drop k with
        | c :: t => if c = '/' || c = '\\' then matchPathTail t else none
        | [] => none) (l1.takeWhile (fun c => !(c = '\n'))).length

/-- `pattern.sub(repl, data)`: scan left to right, replace each
non-overlapping match, resume after the replaced stretch. -/
def reSubAll (matchAt : List Char → Option (List Char × List Char)) :
    Nat → List Char → List Char
  | 0, l => l
  | _ + 1, [] => []
  | fuel + 1, c :: rest =>
      match matchAt (c :: rest) with
      | some (repl, rest') => repl ++ reSubAll matchAt fuel rest'
      | none => c :: reSubAll matchAt fuel rest

/-- `needle in hay` over character lists (Python's `in` for `str`). -/
def isSubstringOf (needle hay : List Char) : Bool :=
  hay.tails.any (fun t => needle.isPrefixOf t)

/-- `data[:max_length] + "..." if len(data) > max_length else data`. -/
def pyTruncate (maxLength : Nat) (l : List Char) : List Char :=
  if l.length > maxLength then l.take maxLength ++ "...".data else l

/-- `sanitize_for_logging(data, max_length)` (`security.py`): the four
substitutions in program order, then truncation.  The `str()` coercion of
non-string input is ruled out by typing. -/
def sanitize_for_logging (data : String) (maxLength : Nat) : String :=
  let d1 := reSubAll matchTextAt data.data.length data.data
  let d2 := reSubAll matchQueryAt d1.length d1
  let d3 := reSubAll matchTagsAt d2.length d2
  let d4 := reSubAll matchPathAt d3.length d3
  String.mk (pyTruncate maxLength d4)

/-! ## Command router (`api_bridge.py`)

`handle_pycmd` and `_send_callback`.  Python values travelling through the
dispatch (parsed JSON arguments, operation results, response dicts) are
modelled by `Value`; `pyobj` stands for any Python object that
`json.dumps` rejects.  `json.loads` is an external stdlib function and is
passed in as an abstract total function `jsonLoads` (returning the parsed
value or a raised exception); `json.dumps` is modelled concretely because the
dispatch code depends on its failure behaviour.  The template-fingerprinting
step (SHA-256 of the card template, lines 85–91) is abstracted into the
`templateId` argument, and `reviewer and reviewer.web` truthiness into
`webOk`.  A delivery — one `reviewer.web.eval` of
`window._ankidroidJsCallback(<id>, <json>)` — is recorded as the pair
`(callbackId, response)`. -/

/-- A Python value crossing the JSON boundary.  `pyobj` is any object that is
not JSON-serializable. -/
inductive Value where
  | null
  | bool (b : Bool)
  | int (n : Int)
  | str (s : String)
  | arr (xs : List Value)
  | obj (fields : List (String × Value))
  | pyobj (tag : String)
deriving Repr

mutual

/-- Whether `json.dumps` accepts the value (no `pyobj` inside). -/
def Value.serializable : Value → Bool
  | .null => true
  | .bool _ => true
  | .int _ => true
  | .str _ => true
  | .arr xs => serializableList xs
  | .obj fs => serializableFields fs
  | .pyobj _ => false

def serializableList : List Value → Bool
  | [] => true
  | v :: vs => v.serializable && serializableList vs

def serializableFields : List (String × Value) → Bool
  | [] => true
  | (_, v) :: fs => v.serializable && serializableFields fs

end

mutual

/-- The JSON text `json.dumps` produces on a serializable value (string
escaping is modelled only for quote and backslash; no claim depends on the
exact escape sequences). -/
def Value.render : Value → String
  | .null => "null"
  | .bool b => if b then "true" else "false"
  | .int n => toString n
  | .str s => "\"" ++ String.mk (s.data.flatMap
      (fun c => if c = '"' || c = '\\' then ['\\', c] else [c])) ++ "\""
  | .arr xs => "[" ++ renderList xs ++ "]"
  | .obj fs => "\x7b" ++ renderFields fs ++ "\x7d"
  | .pyobj tag => tag

def renderList : List Value → String
  | [] => ""
  | [v] => v.render
  | v :: vs => v.render ++ ", " ++ renderList vs

def renderFields : List (String × Value) → String
  | [] => ""
  | [(k, v)] => (Value.str k).render ++ ": " ++ v.render
  | (k, v) :: fs => (Value.str k).render ++ ": " ++ v.render ++ ", " ++ renderFields fs

end

/-- Modelled from the stdlib: `json.dumps(value, ensure_ascii=True)` — the
JSON text, or a raised `TypeError` when the value contains a
non-serializable object. -/
def dumps (v : Value) : Except ExcInfo String :=
  if v.serializable then .ok v.render
  else .error ⟨"TypeError", "Object is not JSON serializable"⟩

/-- `{"success": True, "result": result}`. -/
def successResp (result : Value) : Value :=
  .obj [("success", .bool true), ("result", result)]

/-- `{"success": False, "error": msg}`. -/
def errResp (msg : String) : Value :=
  .obj [("success", .bool false), ("error", .str msg)]

/-- `^-?\d+$` without the end anchor: an optional minus then a nonempty
digit run. -/
def callbackIdCore : List Char → Bool
  | '-' :: ds => !ds.isEmpty && ds.all Char.isDigit
  | ds => !ds.isEmpty && ds.all Char.isDigit

/-- `InputValidator._CALLBACK_ID_PATTERN.match(s)`, i.e. `re.match(r'^-?\d+$', s)`:
as with every Python `$`, a single trailing newline is also accepted. -/
def matchCallbackId (s : String) : Bool :=
  callbackIdCore s.data ||
    (s.data.getLast? = some '\n' && callbackIdCore s.data.dropLast)

/-- Python `str.startswith`. -/
def pyStartsWith (pre s : String) : Bool :=
  pre.data.isPrefixOf s.data

/-- Python `str.split(sep, maxsplit)` with a single-character separator:
`fuel` is the number of splits still allowed; `acc` the (reversed) current
piece. -/
def pySplitAux (sep : Char) : Nat → List Char → List Char → List (List Char)
  | _, [], acc => [acc.reverse]
  | 0, l, acc => [acc.reverse ++ l]
  | fuel + 1, c :: rest, acc =>
      if c = sep then acc.reverse :: pySplitAux sep fuel rest []
      else pySplitAux sep (fuel + 1) rest (c :: acc)

/-- `s.split(sep, maxsplit)`. -/
def pySplit (sep : Char) (maxsplit : Nat) (s : String) : List String :=
  (pySplitAux sep maxsplit s.data []).map String.mk

/-- `_send_callback(reviewer, callback_id, response)` (`api_bridge.py`,
lines 139–154): drop silently unless the callback id matches the pattern,
serialize the response (`json.dumps` may raise — the exception propagates to
the caller), and deliver through `reviewer.web.eval` when the web view is
present. -/
def sendCallback (webOk : Bool) (callbackId : String) (response : Value) :
    Except ExcInfo (List (String × Value)) :=
  if !matchCallbackId callbackId then pure []
  else do
    let _responseJson ← dumps response
    pure (if webOk then [(callbackId, response)] else [])

/-- The body of `handle_pycmd` after envelope parsing (`api_bridge.py`,
lines 84–136): rate check, registry lookup, and the `try`-protected
size-check / JSON-parse / invoke / respond sequence. -/
def dispatchParsed (registry : String → Option (Value → Except ExcInfo Value))
    (jsonLoads : String → Except ExcInfo Value)
    (templateId : String) (webOk : Bool) (st : RLState) (now : ℚ)
    (callbackId functionName argsJson : String) :
    Except ExcInfo (RLState × List (String × Value)) :=
  let res := RateLimiter.check st templateId functionName
    DEFAULT_API_RATE_LIMIT_PER_SECOND now
  let st' := res.2
  if !res.1 then do
    let d ← sendCallback webOk callbackId (errResp "Rate limit exceeded")
    .ok (st', d)
  else
    match registry functionName with
    | none => do
        let d ← sendCallback webOk callbackId
          (errResp ("Unknown API function: " ++ functionName))
        .ok (st', d)
    | some func =>
        let attempt : Except ExcInfo (List (String × Value)) := do
          if argsJson.data.length > MAX_JSON_PAYLOAD_BYTES then
            throw ⟨"ValueError",
              "JSON payload too large: " ++ toString argsJson.data.length ++ " bytes"⟩
          let args ← if argsJson = "" then pure (Value.obj []) else jsonLoads argsJson
          let result ← func args
          sendCallback webOk callbackId (successResp result)
        match attempt with
        | .ok d => .ok (st', d)
        | .error e => do
            let d ← sendCallback webOk callbackId
              (errResp ("Operation failed: " ++ e.kind))
            .ok (st', d)

/-- `handle_pycmd(reviewer, cmd)` (`api_bridge.py`, lines 69–136): the parse /
rate-check / lookup / size-check / invoke / respond pipeline.  Returns the
updated rate-limiter state and the list of callback deliveries, or the
exception the Python function would propagate to its caller. -/
def handle_pycmd (registry : String → Option (Value → Except ExcInfo Value))
    (jsonLoads : String → Except ExcInfo Value)
    (templateId : String) (webOk : Bool) (st : RLState) (now : ℚ) (cmd : String) :
    Except ExcInfo (RLState × List (String × Value)) :=
  if !pyStartsWith "ankidroidjs:" cmd then .ok (st, [])
  else
    let parts := pySplit ':' 3 cmd
    if parts.length < 3 then .ok (st, [])
    else
      dispatchParsed registry jsonLoads templateId webOk st now
        (parts.getD 1 "") (parts.getD 2 "")
        (if parts.length > 3 then parts.getD 3 "" else "\x7b\x7d")

/-- The deliveries a dispatch performed (an uncaught exception escapes before
any delivery on every path of `handle_pycmd`). -/
def deliveredBy : Except ExcInfo (RLState × List (String × Value)) → List (String × Value)
  | .ok (_, ds) => ds
  | .error _ => []

/-! ## Parsing lemmas -/

theorem isPrefixOf_append_self (l t : List Char) : l.isPrefixOf (l ++ t) = true := by
  induction l with
  | nil => simp [List.isPrefixOf]
  | cons c cs ih => simp [List.isPrefixOf, ih]

theorem pySplitAux_zero (sep : Char) (l acc : List Char) :
    pySplitAux sep 0 l acc = [acc.reverse ++ l] := by
  cases l with
  | nil => simp [pySplitAux]
  | cons c rest => rfl

theorem pySplitAux_sepFree_cons (sep : Char) (w rest : List Char) (fuel : Nat)
    (acc : List Char) (hw : ∀ c ∈ w, c ≠ sep) :
    pySplitAux sep (fuel + 1) (w ++ sep :: rest) acc =
      (acc.reverse ++ w) :: pySplitAux sep fuel rest [] := by
  induction w generalizing acc with
  | nil => simp [pySplitAux]
  | cons c cs ih =>
      have hc : c ≠ sep := hw c (by simp)
      have hcs : ∀ d ∈ cs, d ≠ sep := fun d hd => hw d (by simp [hd])
      rw [List.cons_append]
      simp only [pySplitAux, if_neg hc]
      rw [ih (c :: acc) hcs]
      simp

/-- Splitting the wire command format with `maxsplit = 3`, when callback id
and function name contain no separator. -/
theorem pySplit_wire (cid fname args : String)
    (hcid : ∀ c ∈ cid.data, c ≠ ':') (hfname : ∀ c ∈ fname.data, c ≠ ':') :
    pySplit ':' 3 ("ankidroidjs:" ++ cid ++ ":" ++ fname ++ ":" ++ args) =
      ["ankidroidjs", cid, fname, args] := by
  have hdata : ("ankidroidjs:" ++ cid ++ ":" ++ fname ++ ":" ++ args).data =
      "ankidroidjs".data ++ ':' :: (cid.data ++ ':' :: (fname.data ++ ':' :: args.data)) := by
    simp [String.data_append]
  have hpre : ∀ c ∈ "ankidroidjs".data, c ≠ ':' := by decide
  unfold pySplit
  rw [hdata, pySplitAux_sepFree_cons ':' _ _ 2 [] hpre,
    pySplitAux_sepFree_cons ':' _ _ 1 [] hcid,
    pySplitAux_sepFree_cons ':' _ _ 0 [] hfname,
    pySplitAux_zero]
  simp [String.mk]

/-- On a well-formed wire command, `handle_pycmd` reduces to the post-parse
dispatch body. -/
theorem handle_pycmd_wire (registry : String → Option (Value → Except ExcInfo Value))
    (jsonLoads : String → Except ExcInfo Value) (templateId : String) (webOk : Bool)
    (st : RLState) (now : ℚ) (cid fname args : String)
    (hcid : ∀ c ∈ cid.data, c ≠ ':') (hfname : ∀ c ∈ fname.data, c ≠ ':') :
    handle_pycmd registry jsonLoads templateId webOk st now
        ("ankidroidjs:" ++ cid ++ ":" ++ fname ++ ":" ++ args) =
      dispatchParsed registry jsonLoads templateId webOk st now cid fname args := by
  have hpre : pyStartsWith "ankidroidjs:"
      ("ankidroidjs:" ++ cid ++ ":" ++ fname ++ ":" ++ args) = true := by
    unfold pyStartsWith
    have : ("ankidroidjs:" ++ cid ++ ":" ++ fname ++ ":" ++ args).data =
        "ankidroidjs:".data ++ (cid ++ ":" ++ fname ++ ":" ++ args).data := by
      simp [String.data_append]
    rw [this, isPrefixOf_append_self]
  unfold handle_pycmd
  rw [hpre, pySplit_wire cid fname args hcid hfname]
  simp

/-! ## RateLimiter lemmas -/

theorem maybeCleanup_eq_of_no_sweep (st : RLState) (now : ℚ)
    (h : ¬(now - st.lastCleanup > RATE_LIMITER_CLEANUP_INTERVAL_SEC)) :
    RateLimiter.maybeCleanup st now = st := by
  unfold RateLimiter.maybeCleanup
  exact if_neg h

theorem maybeCleanup_buckets_none (st : RLState) (now : ℚ) (k : String)
    (h : st.buckets k = none) :
    (RateLimiter.maybeCleanup st now).buckets k = none := by
  unfold RateLimiter.maybeCleanup
  split
  · show (RateLimiter.cleanupStale now st).buckets k = none
    unfold RateLimiter.cleanupStale
    simp only [h]
  · exact h

theorem maybeCleanup_no_sweep_after (st : RLState) (now : ℚ) :
    ¬(now - (RateLimiter.maybeCleanup st now).lastCleanup >
        RATE_LIMITER_CLEANUP_INTERVAL_SEC) := by
  unfold RateLimiter.maybeCleanup
  split
  · show ¬(now - now > _)
    simp only [sub_self]
    norm_num [RATE_LIMITER_CLEANUP_INTERVAL_SEC]
  · next h => exact h

/-- A bucket that survives the (possible) sweep was already there with the
same content, and its counter is untouched. -/
theorem maybeCleanup_buckets_some (st : RLState) (now : ℚ) (k : String) (v : ℚ × ℚ)
    (h : (RateLimiter.maybeCleanup st now).buckets k = some v) :
    st.buckets k = some v ∧
      (RateLimiter.maybeCleanup st now).callCounts k = st.callCounts k := by
  revert h
  unfold RateLimiter.maybeCleanup
  split
  · intro h
    replace h : (RateLimiter.cleanupStale now st).buckets k = some v := h
    show st.buckets k = some v ∧
      (RateLimiter.cleanupStale now st).callCounts k = st.callCounts k
    unfold RateLimiter.cleanupStale at h ⊢
    dsimp only at h ⊢
    rcases hb0 : st.buckets k with _ | ⟨tok0, lr0⟩
    · rw [hb0] at h
      simp at h
    · rw [hb0] at h
      dsimp only at h ⊢
      split at h
      · simp at h
      · next hstale =>
          rw [if_neg hstale]
          exact ⟨h, rfl⟩
  · intro h
    exact ⟨h, rfl⟩

theorem check_fresh (st : RLState) (identifier operation : String) (m : Int) (now : ℚ)
    (h : st.buckets (identifier ++ ":" ++ operation) = none) :
    (RateLimiter.check st identifier operation m now).1 = true ∧
      RLInv (RateLimiter.check st identifier operation m now).2
        (identifier ++ ":" ++ operation) ((m : ℚ)) now := by
  unfold RateLimiter.check
  dsimp only
  rw [maybeCleanup_buckets_none st now _ h]
  exact ⟨rfl, by simp, maybeCleanup_no_sweep_after st now⟩

/-- A zero-elapsed admitted call on an existing bucket: one token consumed,
refill clock reset (to the same instant), counter incremented. -/
theorem check_zero_elapsed_admit (st : RLState) (identifier operation : String)
    (m : Int) (now tok : ℚ)
    (hInv : RLInv st (identifier ++ ":" ++ operation) tok now)
    (hle : tok ≤ (m : ℚ)) (h1 : 1 ≤ tok) :
    RateLimiter.check st identifier operation m now =
      (true,
        { buckets := fun k =>
            if k = identifier ++ ":" ++ operation then some (tok - 1, now) else st.buckets k
          callCounts := fun k =>
            if k = identifier ++ ":" ++ operation then st.callCounts k + 1 else st.callCounts k
          lastCleanup := st.lastCleanup }) := by
  obtain ⟨hb, hcl⟩ := hInv
  unfold RateLimiter.check
  dsimp only
  rw [maybeCleanup_eq_of_no_sweep st now hcl, hb]
  dsimp only
  rw [sub_self, zero_mul, add_zero, min_eq_right hle, if_pos (ge_iff_le.mpr h1)]

/-- A zero-elapsed rejected call on an existing bucket leaves the state
untouched. -/
theorem check_zero_elapsed_reject (st : RLState) (identifier operation : String)
    (m : Int) (now tok : ℚ)
    (hInv : RLInv st (identifier ++ ":" ++ operation) tok now)
    (hle : tok ≤ (m : ℚ)) (h1 : ¬1 ≤ tok) :
    RateLimiter.check st identifier operation m now = (false, st) := by
  obtain ⟨hb, hcl⟩ := hInv
  unfold RateLimiter.check
  dsimp only
  rw [maybeCleanup_eq_of_no_sweep st now hcl, hb]
  dsimp only
  rw [sub_self, zero_mul, add_zero, min_eq_right hle,
    if_neg (fun hc => h1 (ge_iff_le.mp hc))]

theorem checkSeq_succ_fst (st : RLState) (identifier operation : String)
    (m : Int) (now : ℚ) (n : Nat) :
    (RateLimiter.checkSeq st identifier operation m now (n + 1)).1 =
      (RateLimiter.check st identifier operation m now).1 ::
        (RateLimiter.checkSeq (RateLimiter.check st identifier operation m now).2
          identifier operation m now n).1 := by
  rcases hc : RateLimiter.check st identifier operation m now with ⟨b, st'⟩
  simp [RateLimiter.checkSeq, hc]

/-- Consuming calls at a single instant: from a bucket holding `j ≤ N` whole
tokens, exactly the next `j` calls are admitted and the `(j+1)`th is
rejected. -/
theorem checkSeq_run_out (identifier operation : String) (N : Nat) (now : ℚ) :
    ∀ (j : Nat), j ≤ N → ∀ st : RLState,
      RLInv st (identifier ++ ":" ++ operation) ((j : ℚ)) now →
      (RateLimiter.checkSeq st identifier operation (N : Int) now (j + 1)).1 =
        List.replicate j true ++ [false] := by
  intro j
  induction j with
  | zero =>
      intro _ st hInv
      rw [Nat.cast_zero] at hInv
      rw [checkSeq_succ_fst,
        check_zero_elapsed_reject st identifier operation (N : Int) now 0 hInv
          (by exact_mod_cast Nat.zero_le N) (by norm_num)]
      simp [RateLimiter.checkSeq]
  | succ j ih =>
      intro hle st hInv
      have hj0 : (0 : ℚ) ≤ (j : ℚ) := by positivity
      have hcast : ((j + 1 : Nat) : ℚ) = (j : ℚ) + 1 := by push_cast; ring
      rw [hcast] at hInv
      have hle' : (j : ℚ) + 1 ≤ ((N : Int) : ℚ) := by exact_mod_cast hle
      have h1 : (1 : ℚ) ≤ (j : ℚ) + 1 := by linarith
      have hadmit := check_zero_elapsed_admit st identifier operation (N : Int) now
        ((j : ℚ) + 1) hInv hle' h1
      rw [checkSeq_succ_fst, hadmit]
      have hInvNew : RLInv
          { buckets := fun k =>
              if k = identifier ++ ":" ++ operation then some ((j : ℚ) + 1 - 1, now)
              else st.buckets k
            callCounts := fun k =>
              if k = identifier ++ ":" ++ operation then st.callCounts k + 1
              else st.callCounts k
            lastCleanup := st.lastCleanup }
          (identifier ++ ":" ++ operation) ((j : ℚ)) now := by
        refine ⟨?_, hInv.2⟩
        simp
      rw [ih (Nat.le_of_succ_le hle) _ hInvNew]
      simp [List.replicate_succ]

/-- **C4.** For every `N ≥ 1` and every fresh key, `N + 2` consecutive
`check(identifier, operation, N)` calls with zero elapsed time between them
return `true` for exactly the first `N + 1` calls (the creating call is
admitted without consuming a token, then `N` token-consuming calls) and
`false` on call `N + 2`. -/
theorem rate_limiter_fairness (N : Nat) (_hN : 1 ≤ N) (st : RLState)
    (identifier operation : String) (now : ℚ)
    (hfresh : st.buckets (identifier ++ ":" ++ operation) = none) :
    (RateLimiter.checkSeq st identifier operation (N : Int) now (N + 2)).1 =
      List.replicate (N + 1) true ++ [false] := by
  obtain ⟨hfst, hInv⟩ := check_fresh st identifier operation (N : Int) now hfresh
  have hcast : (((N : Int)) : ℚ) = ((N : Nat) : ℚ) := by push_cast; ring
  rw [hcast] at hInv
  have h2 : N + 2 = (N + 1) + 1 := rfl
  rw [h2, checkSeq_succ_fst, hfst,
    checkSeq_run_out identifier operation N now N le_rfl _ hInv]
  simp [List.replicate_succ]

/-- Witness for C4 at `N = 2`: the four results are `[true, true, true, false]`. -/
theorem rate_limiter_fairness_witness :
    (RateLimiter.checkSeq (RLState.initial 5) "tpl" "f" ((2 : Nat) : Int) 5 (2 + 2)).1 =
      List.replicate (2 + 1) true ++ [false] :=
  rate_limiter_fairness 2 (by norm_num) (RLState.initial 5) "tpl" "f" 5 rfl

/-- **C7.** Whenever `check(identifier, operation, maxPerSecond)` returns
`false`, the rejected key's state is unchanged by that call: its stored
tokens value, its `lastRefillTime`, and its call counter are exactly what
they were before the call. -/
theorem rejected_check_preserves_key_state (st st' : RLState)
    (identifier operation : String) (m : Int) (now : ℚ)
    (h : RateLimiter.check st identifier operation m now = (false, st')) :
    st'.buckets (identifier ++ ":" ++ operation) =
        st.buckets (identifier ++ ":" ++ operation) ∧
      st'.callCounts (identifier ++ ":" ++ operation) =
        st.callCounts (identifier ++ ":" ++ operation) := by
  unfold RateLimiter.check at h
  dsimp only at h
  rcases hb : (RateLimiter.maybeCleanup st now).buckets
      (identifier ++ ":" ++ operation) with _ | ⟨tok, lr⟩
  · rw [hb] at h
    simp at h
  · rw [hb] at h
    dsimp only at h
    split at h
    · simp at h
    · obtain rfl : RateLimiter.maybeCleanup st now = st' := congrArg Prod.snd h
      obtain ⟨hb0, hcnt⟩ := maybeCleanup_buckets_some st now _ _ hb
      exact ⟨hb.trans hb0.symm, hcnt⟩

/-- Witness for C7: a key with an exhausted bucket is rejected and its
bucket and counter are untouched. -/
theorem rejected_check_preserves_key_state_witness :
    RateLimiter.check
        ⟨fun k => if k = "a:b" then some (0, 5) else none,
          fun k => if k = "a:b" then 3 else 0, 5⟩ "a" "b" 10 5 =
      (false,
        ⟨fun k => if k = "a:b" then some (0, 5) else none,
          fun k => if k = "a:b" then 3 else 0, 5⟩) ∧
    ((⟨fun k => if k = "a:b" then some (0, 5) else none,
        fun k => if k = "a:b" then 3 else 0, 5⟩ : RLState).buckets ("a" ++ ":" ++ "b") =
      (⟨fun k => if k = "a:b" then some (0, 5) else none,
        fun k => if k = "a:b" then 3 else 0, 5⟩ : RLState).buckets ("a" ++ ":" ++ "b") ∧
     (⟨fun k => if k = "a:b" then some (0, 5) else none,
        fun k => if k = "a:b" then 3 else 0, 5⟩ : RLState).callCounts ("a" ++ ":" ++ "b") =
      (⟨fun k => if k = "a:b" then some (0, 5) else none,
        fun k => if k = "a:b" then 3 else 0, 5⟩ : RLState).callCounts ("a" ++ ":" ++ "b")) := by
  have hInv : RLInv
      ⟨fun k => if k = "a:b" then some (0, 5) else none,
        fun k => if k = "a:b" then 3 else 0, 5⟩ ("a" ++ ":" ++ "b") 0 5 := by
    constructor
    · show (if ("a" ++ ":" ++ "b") = "a:b" then some ((0 : ℚ), (5 : ℚ)) else none) =
        some (0, 5)
      rw [if_pos (show ("a" ++ ":" ++ "b") = "a:b" from rfl)]
    · show ¬((5 : ℚ) - 5 > RATE_LIMITER_CLEANUP_INTERVAL_SEC)
      norm_num [RATE_LIMITER_CLEANUP_INTERVAL_SEC]
  have h := check_zero_elapsed_reject _ "a" "b" 10 5 0 hInv (by norm_num) (by norm_num)
  exact ⟨h, rejected_check_preserves_key_state _ _ "a" "b" 10 5 h⟩

/-- **C3 counterexample.** A bucket created by `check("a", "b", 1)` (capacity
1) holds 99 tokens after a single later `check("a", "b", 100)` one second
later: the refill clamp uses the later call's `maxPerSecond`, not the
creation-time capacity, so the stored tokens rise far above the creation
capacity `C = 1`, contradicting the claim that refills never raise the
bucket's tokens above `C`. -/
theorem rate_bucket_tokens_exceed_creation_capacity :
    ((RateLimiter.check (RateLimiter.check (RLState.initial 0) "a" "b" 1 0).2
        "a" "b" 100 1).2.buckets "a:b") = some (99, 1) ∧ ¬((99 : ℚ) ≤ 1) := by
  constructor
  · norm_num [RateLimiter.check, RateLimiter.maybeCleanup, RateLimiter.cleanupStale,
      RLState.initial, RATE_LIMITER_CLEANUP_INTERVAL_SEC,
      RATE_LIMITER_STALE_THRESHOLD_SEC, min_def,
      show "a" ++ ":" ++ "b" = "a:b" from rfl]
  · norm_num

/-- **C3 (amended).** A bucket's clamp uses the `maxPerSecond` of the current
`check` call — capacity is not stored at creation.  After any admitted call
with argument `m`, the key's stored tokens are at most `m` (exactly `m` at
creation, at most `m - 1` after a refill-and-consume), and its stored refill
time is the call's `now`; a later call passing a different `maxPerSecond`
thereby changes the effective capacity, and a refill can raise the stored
tokens above the creation-time value. -/
theorem rate_bucket_clamped_to_current_call (st st' : RLState)
    (identifier operation : String) (m : Int) (now : ℚ) (tok lr : ℚ)
    (h : RateLimiter.check st identifier operation m now = (true, st'))
    (hb : st'.buckets (identifier ++ ":" ++ operation) = some (tok, lr)) :
    tok ≤ (m : ℚ) ∧ lr = now := by
  unfold RateLimiter.check at h
  dsimp only at h
  rcases hb1 : (RateLimiter.maybeCleanup st now).buckets
      (identifier ++ ":" ++ operation) with _ | ⟨tok0, lr0⟩
  · rw [hb1] at h
    dsimp only at h
    obtain rfl : _ = st' := congrArg Prod.snd h
    dsimp only at hb
    rw [if_pos rfl] at hb
    obtain ⟨rfl, rfl⟩ : (m : ℚ) = tok ∧ now = lr := by simpa using hb
    exact ⟨le_refl _, rfl⟩
  · rw [hb1] at h
    dsimp only at h
    split at h
    · next htok =>
        obtain rfl : _ = st' := congrArg Prod.snd h
        dsimp only at hb
        rw [if_pos rfl] at hb
        obtain ⟨rfl, rfl⟩ :
            (m : ℚ) ⊓ (tok0 + (now - lr0) * (m : ℚ)) - 1 = tok ∧ now = lr := by
          simpa using hb
        refine ⟨?_, rfl⟩
        have hmin : (m : ℚ) ⊓ (tok0 + (now - lr0) * (m : ℚ)) ≤ (m : ℚ) := min_le_left _ _
        linarith
    · simp at h

/-- Witness for the amended C3: a creating call with `m = 5` stores exactly
5 tokens, within the bound. -/
theorem rate_bucket_clamped_to_current_call_witness :
    ((5 : ℚ) ≤ ((5 : Int) : ℚ) ∧ (0 : ℚ) = (0 : ℚ)) := by
  have hfst := (check_fresh (RLState.initial 0) "a" "b" 5 0 rfl).1
  have hbk := (check_fresh (RLState.initial 0) "a" "b" 5 0 rfl).2.1
  have h : RateLimiter.check (RLState.initial 0) "a" "b" 5 0 =
      (true, (RateLimiter.check (RLState.initial 0) "a" "b" 5 0).2) := by
    rw [← hfst]
  have hb5 : ((RateLimiter.check (RLState.initial 0) "a" "b" 5 0).2).buckets
      ("a" ++ ":" ++ "b") = some ((5 : ℚ), 0) := by
    rw [hbk]
    norm_num
  exact rate_bucket_clamped_to_current_call (RLState.initial 0) _ "a" "b" 5 0 5 0 h hb5

/-! ## validate_text lemmas (C2, C9) -/

theorem pyStrip_sublist (l : List Char) : List.Sublist (pyStrip l) l :=
  ((List.rdropWhile_prefix isSpacePy (l.dropWhile isSpacePy)).sublist).trans
    (List.dropWhile_suffix isSpacePy).sublist

theorem pyStrip_length_le (l : List Char) : (pyStrip l).length ≤ l.length :=
  (pyStrip_sublist l).length_le

theorem pyStrip_idem (l : List Char) : pyStrip (pyStrip l) = pyStrip l := by
  unfold pyStrip
  have h1 : List.dropWhile isSpacePy ((l.dropWhile isSpacePy).rdropWhile isSpacePy) =
      (l.dropWhile isSpacePy).rdropWhile isSpacePy := by
    rcases hrd : (l.dropWhile isSpacePy).rdropWhile isSpacePy with _ | ⟨c, rest⟩
    · simp
    · obtain ⟨t, ht⟩ := List.rdropWhile_prefix isSpacePy (l.dropWhile isSpacePy)
      rw [hrd] at ht
      have hc : isSpacePy c = false := by
        have h0 := List.head?_dropWhile_not isSpacePy l
        rw [← ht] at h0
        simpa using h0
      rw [List.dropWhile_cons_of_neg (by simp [hc])]
  rw [h1, List.rdropWhile_idempotent]

/-- `re.match('^[class]+$', l)` succeeds (with `'\n'` in the class) exactly
when `l` is a nonempty run of class characters. -/
theorem reMatch_true_iff (p : Char → Bool) (hnl : p '\n' = true) (l : List Char) :
    reMatchClassPlusDollar p l = true ↔ (l ≠ [] ∧ ∀ c ∈ l, p c = true) := by
  rcases List.eq_nil_or_concat l with rfl | ⟨as, a, rfl⟩
  · simp [reMatchClassPlusDollar]
  · rw [List.concat_eq_append]
    unfold reMatchClassPlusDollar
    rw [List.getLast?_concat, List.dropLast_concat]
    constructor
    · intro h
      simp only [Bool.or_eq_true, Bool.and_eq_true, List.all_eq_true,
        decide_eq_true_eq] at h
      rcases h with ⟨_, hall⟩ | ⟨⟨heq, _⟩, hall⟩
      · exact ⟨by simp, hall⟩
      · have ha : a = '\n' := Option.some.inj heq
        refine ⟨by simp, fun c hc => ?_⟩
        rcases List.mem_append.mp hc with hc | hc
        · exact hall c hc
        · rw [List.mem_singleton.mp hc, ha]
          exact hnl
    · rintro ⟨_, hall⟩
      simp only [Bool.or_eq_true, Bool.and_eq_true, List.all_eq_true,
        decide_eq_true_eq]
      left
      refine ⟨?_, hall⟩
      have hie : (as ++ [a]).isEmpty = false := by
        cases as <;> rfl
      simp [hie]

/-- Unpacking a successful `validate_text` run (default pattern, newlines
allowed). -/
theorem validate_text_ok_elim (maxLength : Nat) (s r : String)
    (h : validate_text true maxLength s = .ok r) :
    s.data.length ≤ maxLength ∧
      (∀ c ∈ s.data.filter keepCharNL, allowedDefaultChar c = true) ∧
      s.data.filter keepCharNL ≠ [] ∧
      r = String.mk (pyStrip (s.data.filter keepCharNL)) := by
  unfold validate_text at h
  split at h
  · exact absurd h (by simp)
  · next hlen =>
      dsimp only at h
      rw [if_pos (rfl : true = true)] at h
      split at h
      · exact absurd h (by simp)
      · next hmatch =>
          have hm : reMatchClassPlusDollar allowedDefaultChar
              (s.data.filter keepCharNL) = true := by
            revert hmatch
            cases reMatchClassPlusDollar allowedDefaultChar (s.data.filter keepCharNL) <;>
              simp
          have hiff := (reMatch_true_iff allowedDefaultChar (by decide) _).mp hm
          exact ⟨by omega, hiff.2, hiff.1, (Except.ok.inj h).symm⟩

/-- **C2 (amended).** `validate_text` is idempotent on every accepted input
whose validated result is nonempty: if `validate_text(s)` succeeds with a
nonempty result `r` (default `maxLength`, pattern and `allowNewlines`), then
`validate_text(r)` succeeds and equals `r`.  (When the result is empty —
i.e. `s` is pure whitespace — re-validating raises `ValueError`.) -/
theorem validate_text_idempotent_of_nonempty (maxLength : Nat) (s r : String)
    (h : validate_text true maxLength s = .ok r) (hne : r ≠ "") :
    validate_text true maxLength r = .ok r := by
  obtain ⟨hlen, hall, _hne0, hr⟩ := validate_text_ok_elim maxLength s r h
  subst hr
  have hsub : ∀ c ∈ pyStrip (s.data.filter keepCharNL),
      c ∈ s.data.filter keepCharNL :=
    fun c hc => (pyStrip_sublist (s.data.filter keepCharNL)).subset hc
  have hkeep : ∀ c ∈ s.data.filter keepCharNL, keepCharNL c = true :=
    fun c hc => (List.mem_filter.mp hc).2
  have hnonempty : pyStrip (s.data.filter keepCharNL) ≠ [] := by
    intro h0
    exact hne (String.ext (show _ = ([] : List Char) from h0))
  have hlen2 : ¬((String.mk (pyStrip (s.data.filter keepCharNL))).data.length > maxLength) := by
    have h1 := pyStrip_length_le (s.data.filter keepCharNL)
    have h2 := List.length_filter_le keepCharNL s.data
    show ¬(pyStrip (s.data.filter keepCharNL)).length > maxLength
    omega
  unfold validate_text
  rw [if_neg hlen2]
  rw [if_pos (rfl : true = true)]
  have hfilter : (String.mk (pyStrip (s.data.filter keepCharNL))).data.filter keepCharNL =
      pyStrip (s.data.filter keepCharNL) :=
    List.filter_eq_self.mpr fun a ha => hkeep a (hsub a ha)
  rw [hfilter]
  have hm2 : reMatchClassPlusDollar allowedDefaultChar
      (pyStrip (s.data.filter keepCharNL)) = true :=
    (reMatch_true_iff allowedDefaultChar (by decide) _).mpr
      ⟨hnonempty, fun c hc => hall c (hsub c hc)⟩
  dsimp only
  rw [hm2]
  simp [pyStrip_idem]

/-- Witness for the amended C2: `"a"` validates to itself and re-validates
to itself. -/
theorem validate_text_idempotent_of_nonempty_witness :
    validate_text true MAX_TEXT_LENGTH "a" = .ok "a" :=
  validate_text_idempotent_of_nonempty MAX_TEXT_LENGTH "a" "a" (by decide) (by decide)

/-- **C2 counterexample.** `" "` (one space) is accepted by `validate_text`
with result `""`, but `validate_text("")` raises `ValueError`, so
`validateText(validateText(s))` is not `validateText(s)` for every accepted
`s`: the claim fails on pure-whitespace inputs. -/
theorem validate_text_not_idempotent_on_whitespace :
    validate_text true MAX_TEXT_LENGTH " " = .ok "" ∧
      validate_text true MAX_TEXT_LENGTH "" =
        .error ⟨"ValueError", "Text contains invalid characters"⟩ := by
  constructor
  · decide
  · decide

/-- **C9.** `validate_text` does not guarantee a nonempty result: the
whitespace-only input `"   "` is accepted (the default pattern accepts pure
whitespace) and the final strip removes everything, returning `""`. -/
theorem validate_text_whitespace_gives_empty :
    validate_text true MAX_TEXT_LENGTH "   " = .ok "" := by decide

/-! ## Dispatch lemmas (C1, C5, C6, C10) -/

theorem except_bind_ok {α β : Type} (a : α) (f : α → Except ExcInfo β) :
    (Except.ok a >>= f) = f a := rfl

theorem except_bind_error {α β : Type} (e : ExcInfo) (f : α → Except ExcInfo β) :
    ((Except.error e : Except ExcInfo α) >>= f) = Except.error e := rfl

theorem errResp_serializable (msg : String) : (errResp msg).serializable = true := rfl

theorem successResp_serializable (v : Value) :
    (successResp v).serializable = v.serializable := by
  cases hv : v.serializable <;>
    simp [successResp, Value.serializable, serializableFields, hv]

theorem sendCallback_invalid (webOk : Bool) (cid : String) (resp : Value)
    (h : matchCallbackId cid = false) :
    sendCallback webOk cid resp = .ok [] := by
  unfold sendCallback
  rw [h]
  rfl

theorem sendCallback_valid (webOk : Bool) (cid : String) (resp : Value)
    (hcid : matchCallbackId cid = true) (hser : resp.serializable = true) :
    sendCallback webOk cid resp = .ok (if webOk then [(cid, resp)] else []) := by
  unfold sendCallback
  rw [hcid]
  show (do
    let _responseJson ← dumps resp
    pure (if webOk then [(cid, resp)] else []) : Except ExcInfo _) = _
  unfold dumps
  rw [if_pos hser]
  rfl

/-- When the rate check admits and the function is unregistered, the script
gets the unknown-function error — regardless of `argsJson` (the registry
lookup precedes the payload-size check). -/
theorem dispatchParsed_unknown (registry : String → Option (Value → Except ExcInfo Value))
    (jsonLoads : String → Except ExcInfo Value) (templateId : String) (webOk : Bool)
    (st : RLState) (now : ℚ) (cid fname args : String)
    (hrate : (RateLimiter.check st templateId fname
      DEFAULT_API_RATE_LIMIT_PER_SECOND now).1 = true)
    (hreg : registry fname = none)
    (hcid : matchCallbackId cid = true) :
    dispatchParsed registry jsonLoads templateId webOk st now cid fname args =
      .ok ((RateLimiter.check st templateId fname DEFAULT_API_RATE_LIMIT_PER_SECOND now).2,
        if webOk then [(cid, errResp ("Unknown API function: " ++ fname))] else []) := by
  unfold dispatchParsed
  dsimp only
  rw [hrate, hreg]
  simp only [Bool.not_true]
  rw [if_neg (show ¬(false = true) from by simp)]
  rw [sendCallback_valid webOk cid _ hcid (errResp_serializable _), except_bind_ok]

theorem except_throw_eq {α : Type} (e : ExcInfo) :
    (throw e : Except ExcInfo α) = Except.error e := rfl

theorem except_pure_eq {α : Type} (a : α) : (pure a : Except ExcInfo α) = Except.ok a := rfl

/-- When the rate check admits, the function is registered and the payload is
oversized, the script gets `Operation failed: ValueError` (the size check
raises inside the `try`). -/
theorem dispatchParsed_oversized (registry : String → Option (Value → Except ExcInfo Value))
    (jsonLoads : String → Except ExcInfo Value) (templateId : String) (webOk : Bool)
    (st : RLState) (now : ℚ) (cid fname args : String)
    (f : Value → Except ExcInfo Value)
    (hrate : (RateLimiter.check st templateId fname
      DEFAULT_API_RATE_LIMIT_PER_SECOND now).1 = true)
    (hreg : registry fname = some f)
    (hsize : args.data.length > MAX_JSON_PAYLOAD_BYTES)
    (hcid : matchCallbackId cid = true) :
    dispatchParsed registry jsonLoads templateId webOk st now cid fname args =
      .ok ((RateLimiter.check st templateId fname DEFAULT_API_RATE_LIMIT_PER_SECOND now).2,
        if webOk then [(cid, errResp "Operation failed: ValueError")] else []) := by
  unfold dispatchParsed
  dsimp only
  rw [hrate, hreg]
  simp only [Bool.not_true]
  rw [if_neg (show ¬(false = true) from by simp)]
  rw [if_pos hsize]
  simp only [except_throw_eq, except_bind_error]
  rw [sendCallback_valid webOk cid _ hcid (errResp_serializable _), except_bind_ok]
  rfl

theorem sendCallback_valid_unserializable (webOk : Bool) (cid : String) (resp : Value)
    (hcid : matchCallbackId cid = true) (hser : resp.serializable = false) :
    sendCallback webOk cid resp =
      .error ⟨"TypeError", "Object is not JSON serializable"⟩ := by
  unfold sendCallback
  rw [hcid]
  show (do
    let _responseJson ← dumps resp
    pure (if webOk then [(cid, resp)] else []) : Except ExcInfo _) = _
  unfold dumps
  rw [if_neg (by simp [hser])]
  rfl

/-- When the rate check admits, the function is registered, the payload fits,
the arguments parse, and the call raises `e`, the script gets
`Operation failed: <e.kind>` — independent of `e.msg`. -/
theorem dispatchParsed_raises (registry : String → Option (Value → Except ExcInfo Value))
    (jsonLoads : String → Except ExcInfo Value) (templateId : String) (webOk : Bool)
    (st : RLState) (now : ℚ) (cid fname args : String)
    (f : Value → Except ExcInfo Value) (a : Value) (e : ExcInfo)
    (hrate : (RateLimiter.check st templateId fname
      DEFAULT_API_RATE_LIMIT_PER_SECOND now).1 = true)
    (hreg : registry fname = some f)
    (hsize : ¬args.data.length > MAX_JSON_PAYLOAD_BYTES)
    (hargs : args ≠ "")
    (hload : jsonLoads args = .ok a)
    (hf : f a = .error e)
    (hcid : matchCallbackId cid = true) :
    dispatchParsed registry jsonLoads templateId webOk st now cid fname args =
      .ok ((RateLimiter.check st templateId fname DEFAULT_API_RATE_LIMIT_PER_SECOND now).2,
        if webOk then [(cid, errResp ("Operation failed: " ++ e.kind))] else []) := by
  unfold dispatchParsed
  dsimp only
  rw [hrate, hreg]
  simp only [Bool.not_true]
  rw [if_neg (show ¬(false = true) from by simp)]
  rw [if_neg hsize]
  simp only [except_pure_eq, except_bind_ok]
  rw [if_neg hargs, hload]
  simp only [except_bind_ok]
  rw [hf]
  simp only [except_bind_error]
  rw [sendCallback_valid webOk cid _ hcid (errResp_serializable _), except_bind_ok]

/-- When the call succeeds but its result is not JSON-serializable, the
serialization failure inside the success-path callback is caught like any
other invocation failure: the script gets `Operation failed: TypeError`. -/
theorem dispatchParsed_unserializable_result
    (registry : String → Option (Value → Except ExcInfo Value))
    (jsonLoads : String → Except ExcInfo Value) (templateId : String) (webOk : Bool)
    (st : RLState) (now : ℚ) (cid fname args : String)
    (f : Value → Except ExcInfo Value) (a v : Value)
    (hrate : (RateLimiter.check st templateId fname
      DEFAULT_API_RATE_LIMIT_PER_SECOND now).1 = true)
    (hreg : registry fname = some f)
    (hsize : ¬args.data.length > MAX_JSON_PAYLOAD_BYTES)
    (hargs : args ≠ "")
    (hload : jsonLoads args = .ok a)
    (hf : f a = .ok v)
    (hser : v.serializable = false)
    (hcid : matchCallbackId cid = true) :
    dispatchParsed registry jsonLoads templateId webOk st now cid fname args =
      .ok ((RateLimiter.check st templateId fname DEFAULT_API_RATE_LIMIT_PER_SECOND now).2,
        if webOk then [(cid, errResp "Operation failed: TypeError")] else []) := by
  unfold dispatchParsed
  dsimp only
  rw [hrate, hreg]
  simp only [Bool.not_true]
  rw [if_neg (show ¬(false = true) from by simp)]
  rw [if_neg hsize]
  simp only [except_pure_eq, except_bind_ok]
  rw [if_neg hargs, hload]
  simp only [except_bind_ok]
  rw [hf]
  simp only [except_bind_ok]
  rw [sendCallback_valid_unserializable webOk cid _ hcid
    (by rw [successResp_serializable]; exact hser)]
  dsimp only
  rw [sendCallback_valid webOk cid _ hcid (errResp_serializable _), except_bind_ok]
  rfl

/-- With an invalid callback id, no branch of the post-parse dispatch
delivers anything: the rate-limit error, the unknown-function error, the
success response and the caught-exception response are all dropped by
`_send_callback`'s validation. -/
theorem dispatchParsed_invalid_cid (registry : String → Option (Value → Except ExcInfo Value))
    (jsonLoads : String → Except ExcInfo Value) (templateId : String) (webOk : Bool)
    (st : RLState) (now : ℚ) (cid fname args : String)
    (h : matchCallbackId cid = false) :
    deliveredBy (dispatchParsed registry jsonLoads templateId webOk st now cid fname args) =
      [] := by
  unfold dispatchParsed
  dsimp only
  cases hrate : (RateLimiter.check st templateId fname
      DEFAULT_API_RATE_LIMIT_PER_SECOND now).1
  · simp only [Bool.not_false]
    rw [if_pos trivial]
    rw [sendCallback_invalid webOk cid _ h, except_bind_ok]
    rfl
  · simp only [Bool.not_true]
    rw [if_neg (show ¬(false = true) from by simp)]
    rcases hreg : registry fname with _ | f
    · dsimp only
      rw [sendCallback_invalid webOk cid _ h, except_bind_ok]
      rfl
    · dsimp only
      split
      · next d hat =>
          suffices hd : d = [] by rw [hd]; rfl
          by_cases hsz : args.data.length > MAX_JSON_PAYLOAD_BYTES
          · rw [if_pos hsz] at hat
            simp only [except_throw_eq, except_bind_error] at hat
            exact absurd hat (by simp)
          · rw [if_neg hsz] at hat
            simp only [except_pure_eq, except_bind_ok] at hat
            by_cases hae : args = ""
            · rw [if_pos hae] at hat
              rcases hfa : f (Value.obj []) with e | r
              · rw [hfa] at hat
                simp only [except_bind_error] at hat
                exact absurd hat (by simp)
              · rw [hfa] at hat
                simp only [except_bind_ok] at hat
                rw [sendCallback_invalid webOk cid _ h] at hat
                exact (Except.ok.inj hat).symm
            · rw [if_neg hae] at hat
              rcases hld : jsonLoads args with e | a
              · rw [hld] at hat
                simp only [except_bind_error] at hat
                exact absurd hat (by simp)
              · rw [hld] at hat
                simp only [except_bind_ok] at hat
                rcases hfa : f a with e | r
                · rw [hfa] at hat
                  simp only [except_bind_error] at hat
                  exact absurd hat (by simp)
                · rw [hfa] at hat
                  simp only [except_bind_ok] at hat
                  rw [sendCallback_invalid webOk cid _ h] at hat
                  exact (Except.ok.inj hat).symm
      · next e hat =>
          rw [sendCallback_invalid webOk cid _ h, except_bind_ok]
          rfl

/-- **C6.** Protocol-level failures never trigger a callback delivery: for
every inbound command that lacks the `"ankidroidjs:"` prefix, or has fewer
than two colon-delimited parts after the prefix (fewer than three parts
overall), or whose callbackId does not match `^-?\d+$`, `handle_pycmd`
never invokes the web-view callback. -/
theorem protocol_failures_never_deliver
    (registry : String → Option (Value → Except ExcInfo Value))
    (jsonLoads : String → Except ExcInfo Value) (templateId : String) (webOk : Bool)
    (st : RLState) (now : ℚ) (cmd : String)
    (h : pyStartsWith "ankidroidjs:" cmd = false ∨
      (pySplit ':' 3 cmd).length < 3 ∨
      matchCallbackId ((pySplit ':' 3 cmd).getD 1 "") = false) :
    deliveredBy (handle_pycmd registry jsonLoads templateId webOk st now cmd) = [] := by
  unfold handle_pycmd
  cases hp : pyStartsWith "ankidroidjs:" cmd
  · simp only [Bool.not_false]
    rw [if_pos trivial]
    rfl
  · rcases h with h | h | h
    · rw [hp] at h
      exact absurd h (by simp)
    · simp only [Bool.not_true]
      rw [if_neg (show ¬(false = true) from by simp)]
      rw [if_pos h]
      rfl
    · by_cases hlt : (pySplit ':' 3 cmd).length < 3
      · simp only [Bool.not_true]
        rw [if_neg (show ¬(false = true) from by simp)]
        rw [if_pos hlt]
        rfl
      · simp only [Bool.not_true]
        rw [if_neg (show ¬(false = true) from by simp)]
        rw [if_neg hlt]
        exact dispatchParsed_invalid_cid registry jsonLoads templateId webOk st now _ _ _ h

/-- Witness for C6: the prefix-less command `"nope"`, a short envelope, and a
non-numeric callback id are all dropped without delivery. -/
theorem protocol_failures_never_deliver_witness :
    deliveredBy (handle_pycmd (fun _ => none) (fun _ => .ok Value.null) "tpl" true
      (RLState.initial 0) 0 "nope") = [] :=
  protocol_failures_never_deliver (fun _ => none) (fun _ => .ok Value.null) "tpl" true
    (RLState.initial 0) 0 "nope" (Or.inl (by decide))

/-- **C5.** The error payload delivered for a failing operation contains only
the exception's kind name, never its message text: two invocations whose
operations raise exceptions of the same kind but arbitrary (possibly
different) messages produce identical deliveries, both equal to
`{"success": false, "error": "Operation failed: <kind>"}`. -/
theorem error_payload_message_independent
    (jsonLoads : String → Except ExcInfo Value) (templateId : String)
    (st : RLState) (now : ℚ) (cid fname args : String) (a : Value) (e₁ e₂ : ExcInfo)
    (hkind : e₁.kind = e₂.kind)
    (hcidcf : ∀ c ∈ cid.data, c ≠ ':') (hfnamecf : ∀ c ∈ fname.data, c ≠ ':')
    (hcidv : matchCallbackId cid = true)
    (hfresh : st.buckets (templateId ++ ":" ++ fname) = none)
    (hsize : ¬args.data.length > MAX_JSON_PAYLOAD_BYTES)
    (hargs : args ≠ "")
    (hload : jsonLoads args = .ok a) :
    deliveredBy (handle_pycmd (fun n => if n = fname then some (fun _ => throw e₁) else none)
        jsonLoads templateId true st now
        ("ankidroidjs:" ++ cid ++ ":" ++ fname ++ ":" ++ args)) =
      [(cid, errResp ("Operation failed: " ++ e₁.kind))] ∧
      deliveredBy (handle_pycmd (fun n => if n = fname then some (fun _ => throw e₂) else none)
        jsonLoads templateId true st now
        ("ankidroidjs:" ++ cid ++ ":" ++ fname ++ ":" ++ args)) =
      [(cid, errResp ("Operation failed: " ++ e₁.kind))] := by
  have hrate := (check_fresh st templateId fname DEFAULT_API_RATE_LIMIT_PER_SECOND now hfresh).1
  constructor
  · rw [handle_pycmd_wire _ jsonLoads templateId true st now cid fname args hcidcf hfnamecf]
    rw [dispatchParsed_raises _ jsonLoads templateId true st now cid fname args
      (fun _ => throw e₁) a e₁ hrate (by rw [if_pos rfl]) hsize hargs hload rfl hcidv]
    rfl
  · rw [handle_pycmd_wire _ jsonLoads templateId true st now cid fname args hcidcf hfnamecf]
    rw [dispatchParsed_raises _ jsonLoads templateId true st now cid fname args
      (fun _ => throw e₂) a e₂ hrate (by rw [if_pos rfl]) hsize hargs hload rfl hcidv]
    rw [← hkind]
    rfl

/-- Witness for C5: two `ValueError`s with different secret messages yield
byte-identical deliveries naming only the kind. -/
theorem error_payload_message_independent_witness :
    deliveredBy (handle_pycmd
        (fun n => if n = "f" then
          some (fun _ => throw (⟨"ValueError", "secret one"⟩ : ExcInfo)) else none)
        (fun _ => .ok Value.null) "tpl" true (RLState.initial 0) 0
        ("ankidroidjs:" ++ "7" ++ ":" ++ "f" ++ ":" ++ "1")) =
      [("7", errResp ("Operation failed: " ++ "ValueError"))] ∧
      deliveredBy (handle_pycmd
        (fun n => if n = "f" then
          some (fun _ => throw (⟨"ValueError", "other two"⟩ : ExcInfo)) else none)
        (fun _ => .ok Value.null) "tpl" true (RLState.initial 0) 0
        ("ankidroidjs:" ++ "7" ++ ":" ++ "f" ++ ":" ++ "1")) =
      [("7", errResp ("Operation failed: " ++ "ValueError"))] :=
  error_payload_message_independent (fun _ => .ok Value.null) "tpl" (RLState.initial 0) 0
    "7" "f" "1" Value.null ⟨"ValueError", "secret one"⟩ ⟨"ValueError", "other two"⟩ rfl
    (by decide) (by decide) (by decide) rfl (by decide) (by decide) rfl

/-- A concrete 10241-character payload exceeds the 10 KiB cap. -/
theorem bigPayload_oversized :
    (String.mk (List.replicate 10241 'a')).data.length > MAX_JSON_PAYLOAD_BYTES := by
  show (List.replicate 10241 'a').length > MAX_JSON_PAYLOAD_BYTES
  rw [List.length_replicate]
  decide

/-- **C1 (amended).** For inbound commands that pass the rate check with a
*registered* function name and `argsJson` longer than 10240 characters, the
script receives `{"success": false, "error": "Operation failed: ValueError"}`.
The registry lookup happens *before* the payload-size check
(`api_bridge.py` line 104 vs. line 113), so an unregistered function name
yields the unknown-function error instead, whatever the payload size. -/
theorem oversized_payload_registered_yields_valueerror
    (registry : String → Option (Value → Except ExcInfo Value))
    (jsonLoads : String → Except ExcInfo Value) (templateId : String)
    (st : RLState) (now : ℚ) (cid fname args : String)
    (f : Value → Except ExcInfo Value)
    (hreg : registry fname = some f)
    (hcidcf : ∀ c ∈ cid.data, c ≠ ':') (hfnamecf : ∀ c ∈ fname.data, c ≠ ':')
    (hcidv : matchCallbackId cid = true)
    (hfresh : st.buckets (templateId ++ ":" ++ fname) = none)
    (hsize : args.data.length > MAX_JSON_PAYLOAD_BYTES) :
    deliveredBy (handle_pycmd registry jsonLoads templateId true st now
        ("ankidroidjs:" ++ cid ++ ":" ++ fname ++ ":" ++ args)) =
      [(cid, errResp "Operation failed: ValueError")] := by
  have hrate := (check_fresh st templateId fname DEFAULT_API_RATE_LIMIT_PER_SECOND now hfresh).1
  rw [handle_pycmd_wire registry jsonLoads templateId true st now cid fname args
    hcidcf hfnamecf]
  rw [dispatchParsed_oversized registry jsonLoads templateId true st now cid fname args
    f hrate hreg hsize hcidv]
  rfl

/-- Witness for the amended C1: a 10241-character payload for a registered
function produces the `ValueError` response. -/
theorem oversized_payload_registered_yields_valueerror_witness :
    deliveredBy (handle_pycmd
        (fun n => if n = "f" then some (fun _ => .ok Value.null) else none)
        (fun _ => .ok Value.null) "tpl" true (RLState.initial 0) 0
        ("ankidroidjs:" ++ "7" ++ ":" ++ "f" ++ ":" ++
          String.mk (List.replicate 10241 'a'))) =
      [("7", errResp "Operation failed: ValueError")] :=
  oversized_payload_registered_yields_valueerror
    (fun n => if n = "f" then some (fun _ => .ok Value.null) else none)
    (fun _ => .ok Value.null) "tpl" (RLState.initial 0) 0 "7" "f"
    (String.mk (List.replicate 10241 'a')) (fun _ => .ok Value.null)
    rfl (by decide) (by decide) (by decide) rfl bigPayload_oversized

/-- **C1 counterexample.** An oversized payload sent to an *unregistered*
function name is answered with the unknown-function error, not
`Operation failed: ValueError`: the registry lookup precedes the size check,
so the claim's "this holds regardless of whether functionName is registered"
fails on the code. -/
theorem oversized_unregistered_yields_unknown_function :
    (String.mk (List.replicate 10241 'a')).data.length > MAX_JSON_PAYLOAD_BYTES ∧
      deliveredBy (handle_pycmd (fun _ => none) (fun _ => .ok Value.null) "tpl" true
          (RLState.initial 0) 0
          ("ankidroidjs:" ++ "5" ++ ":" ++ "foo" ++ ":" ++
            String.mk (List.replicate 10241 'a'))) =
        [("5", errResp ("Unknown API function: " ++ "foo"))] ∧
      errResp ("Unknown API function: " ++ "foo") ≠
        errResp "Operation failed: ValueError" := by
  have hrate := (check_fresh (RLState.initial 0) "tpl" "foo"
    DEFAULT_API_RATE_LIMIT_PER_SECOND 0 rfl).1
  refine ⟨bigPayload_oversized, ?_, ?_⟩
  · rw [handle_pycmd_wire (fun _ => none) (fun _ => .ok Value.null) "tpl" true
      (RLState.initial 0) 0 "5" "foo" (String.mk (List.replicate 10241 'a'))
      (by decide) (by decide)]
    rw [dispatchParsed_unknown (fun _ => none) (fun _ => .ok Value.null) "tpl" true
      (RLState.initial 0) 0 "5" "foo" (String.mk (List.replicate 10241 'a'))
      hrate rfl (by decide)]
    rfl
  · intro hcontra
    have h2 := congrArg (fun v => match v with
      | Value.obj (_ :: (_, Value.str m) :: _) => m
      | _ => "") hcontra
    exact absurd h2 (by decide)

/-- **C10.** If a registered operation completes normally but returns a value
that JSON serialization rejects, the router neither raises nor goes silent:
the `json.dumps` failure inside the success-path callback is caught by the
same `except` as the call itself and, with a valid callbackId and a live web
view, the script receives
`{"success": false, "error": "Operation failed: TypeError"}`. -/
theorem unserializable_result_yields_typeerror
    (registry : String → Option (Value → Except ExcInfo Value))
    (jsonLoads : String → Except ExcInfo Value) (templateId : String)
    (st : RLState) (now : ℚ) (cid fname args : String)
    (f : Value → Except ExcInfo Value) (a v : Value)
    (hreg : registry fname = some f)
    (hcidcf : ∀ c ∈ cid.data, c ≠ ':') (hfnamecf : ∀ c ∈ fname.data, c ≠ ':')
    (hcidv : matchCallbackId cid = true)
    (hfresh : st.buckets (templateId ++ ":" ++ fname) = none)
    (hsize : ¬args.data.length > MAX_JSON_PAYLOAD_BYTES)
    (hargs : args ≠ "")
    (hload : jsonLoads args = .ok a)
    (hf : f a = .ok v)
    (hser : v.serializable = false) :
    deliveredBy (handle_pycmd registry jsonLoads templateId true st now
        ("ankidroidjs:" ++ cid ++ ":" ++ fname ++ ":" ++ args)) =
      [(cid, errResp "Operation failed: TypeError")] := by
  have hrate := (check_fresh st templateId fname DEFAULT_API_RATE_LIMIT_PER_SECOND now hfresh).1
  rw [handle_pycmd_wire registry jsonLoads templateId true st now cid fname args
    hcidcf hfnamecf]
  rw [dispatchParsed_unserializable_result registry jsonLoads templateId true st now
    cid fname args f a v hrate hreg hsize hargs hload hf hser hcidv]
  rfl

/-- Witness for C10: a function returning a non-serializable Python object
produces the `TypeError` response. -/
theorem unserializable_result_yields_typeerror_witness :
    deliveredBy (handle_pycmd
        (fun n => if n = "f" then some (fun _ => .ok (Value.pyobj "Card")) else none)
        (fun _ => .ok Value.null) "tpl" true (RLState.initial 0) 0
        ("ankidroidjs:" ++ "7" ++ ":" ++ "f" ++ ":" ++ "1")) =
      [("7", errResp "Operation failed: TypeError")] :=
  unserializable_result_yields_typeerror
    (fun n => if n = "f" then some (fun _ => .ok (Value.pyobj "Card")) else none)
    (fun _ => .ok Value.null) "tpl" (RLState.initial 0) 0 "7" "f" "1"
    (fun _ => .ok (Value.pyobj "Card")) Value.null (Value.pyobj "Card")
    rfl (by decide) (by decide) (by decide) rfl (by decide) (by decide) rfl rfl rfl

/-! ## sanitize_for_logging lemmas (C8) -/

theorem stripLit_self (lit rest : List Char) : stripLit lit (lit ++ rest) = some rest := by
  induction lit with
  | nil => rfl
  | cons c cs ih => simp [stripLit, ih]

theorem dropWhile_append_all {p : Char → Bool} (A B : List Char)
    (h : ∀ c ∈ A, p c = true) :
    List.dropWhile p (A ++ B) = List.dropWhile p B := by
  induction A with
  | nil => rfl
  | cons c cs ih =>
      rw [List.cons_append, List.dropWhile_cons_of_pos (h c (by simp))]
      exact ih fun d hd => h d (by simp [hd])

theorem reSubAll_nil (m : List Char → Option (List Char × List Char)) (fuel : Nat) :
    reSubAll m fuel [] = [] := by
  cases fuel <;> rfl

/-- If the pattern matches the whole remaining input at the very first
position, the scan replaces it and stops. -/
theorem reSubAll_head_match_all (m : List Char → Option (List Char × List Char))
    (fuel : Nat) (l rest repl : List Char) (c : Char)
    (hl : l = c :: rest) (hm : m l = some (repl, [])) (hfuel : 1 ≤ fuel) :
    reSubAll m fuel l = repl := by
  subst hl
  cases fuel with
  | zero => omega
  | succ n =>
      show reSubAll m (n + 1) (c :: rest) = repl
      simp only [reSubAll]
      rw [hm]
      dsimp only
      rw [reSubAll_nil]
      simp

/-- **C8 (amended).** Every input of the exact form `"text": "<value>"`
(value without embedded quotes) sanitizes to exactly
`"text":"[REDACTED]"`: the field is replaced, the output contains
`[REDACTED]`, and the original value survives only if it happens to be a
substring of the replacement text itself (or occurred elsewhere in a larger
input). -/
theorem sanitize_redacts_exact_text_field (v : String)
    (hv : ∀ c ∈ v.data, c ≠ '"') :
    sanitize_for_logging ("\"text\": \"" ++ v ++ "\"") MAX_LOG_MESSAGE_LENGTH =
      "\"text\":\"[REDACTED]\"" := by
  have hdata : ("\"text\": \"" ++ v ++ "\"").data =
      '"' :: 't' :: 'e' :: 'x' :: 't' :: '"' :: ':' :: ' ' :: '"' :: (v.data ++ ['"']) := by
    rw [String.data_append, String.data_append]
    rfl
  have hdw : List.dropWhile (fun d => !(d = '"')) (v.data ++ ['"']) = ['"'] := by
    have hall : ∀ c ∈ v.data, (fun d => !(d = '"')) c = true := by
      intro c hc
      simp [hv c hc]
    rw [dropWhile_append_all _ _ hall]
    rfl
  have hmatch : matchTextAt
      ('"' :: 't' :: 'e' :: 'x' :: 't' :: '"' :: ':' :: ' ' :: '"' :: (v.data ++ ['"'])) =
      some ("\"text\":\"[REDACTED]\"".data, []) := by
    unfold matchTextAt matchFieldAt
    rw [show stripLit "\"text\":".data
        ('"' :: 't' :: 'e' :: 'x' :: 't' :: '"' :: ':' :: ' ' :: '"' :: (v.data ++ ['"'])) =
        some (' ' :: '"' :: (v.data ++ ['"'])) from rfl]
    dsimp only
    rw [show List.dropWhile isSpacePy (' ' :: '"' :: (v.data ++ ['"'])) =
        '"' :: (v.data ++ ['"']) from rfl]
    dsimp only
    rw [if_pos rfl, hdw]
    dsimp only
    rw [if_pos rfl]
  have h1 : reSubAll matchTextAt
      (List.length
        ('"' :: 't' :: 'e' :: 'x' :: 't' :: '"' :: ':' :: ' ' :: '"' :: (v.data ++ ['"'])))
      ('"' :: 't' :: 'e' :: 'x' :: 't' :: '"' :: ':' :: ' ' :: '"' :: (v.data ++ ['"'])) =
      "\"text\":\"[REDACTED]\"".data :=
    reSubAll_head_match_all matchTextAt _ _ _ _ '"' rfl hmatch (by simp)
  unfold sanitize_for_logging
  dsimp only
  rw [hdata, h1]
  rfl

/-- Witness for the amended C8: a concrete field value is redacted. -/
theorem sanitize_redacts_exact_text_field_witness :
    sanitize_for_logging ("\"text\": \"" ++ "secret" ++ "\"") MAX_LOG_MESSAGE_LENGTH =
      "\"text\":\"[REDACTED]\"" :=
  sanitize_redacts_exact_text_field "secret" (by decide)

/-- **C8 counterexample.** The input `"text": "E"` contains a `"text"` field
whose quote-free value is `"E"`; the sanitized output is
`"text":"[REDACTED]"`, which *does* contain the original field value `E`
(as part of the word `REDACTED`), so "the output never contains the
original field value" fails as stated. -/
theorem sanitize_output_can_contain_field_value :
    sanitize_for_logging "\"text\": \"E\"" MAX_LOG_MESSAGE_LENGTH =
      "\"text\":\"[REDACTED]\"" ∧
      isSubstringOf "E".data "\"text\":\"[REDACTED]\"".data = true := by
  constructor
  · decide
  · decide
